import Mathlib

/-
Verification development for the Car-thesien repository.

Embedded code:
- src/src/App.jsx: getRecommendation, getGaugeColor, the VehicleModal gauge
  construction (namespace AppMain);
- src/src/components/CarAnalysisCard.jsx: ConfidenceBadge (namespace Card);
- src/unnamed/part_002 (simplified marketplace app): getRecommendation and the
  modal wiring (namespace Marketplace);
- the enrichment core (Normalizer, Matcher, Evidence Fuser, Cost Model) is not
  implemented under src/ — src/unnamed/part_000 only contains design notes
  (thresholds, the kW to DIN-hp factor 1.35962, the TCO formulas).  Those
  components are modelled from the spec in namespace Core; each such definition
  carries a doc comment starting with "Modelled from the spec:".

Numeric conventions: similarity scores are integers (the spec thresholds 92/85
are integers); powers are integer kilowatts and DIN horsepower, and the fixed
conversion factor 1.35962 is handled exactly by scaling with 100000; monetary
amounts and UI sub-scores are rationals.
-/

/-- Verdict band of the recommendation helpers.  In the JS sources the bands are
the strings "🟢 Excellent choix …", "🟡 Bon choix …", "🟠 Acceptable …",
"🔴 Prudence …"; only the band identity matters here. -/
inductive Verdict
  | excellent
  | bon
  | acceptable
  | prudence
deriving DecidableEq

/-- JavaScript `x || d` for a possibly-undefined number `x`: `undefined` and the
falsy number `0` both fall back to the default `d`. -/
def jsOr (x : Option ℚ) (d : ℚ) : ℚ :=
  match x with
  | none => d
  | some v => if v = 0 then d else v

/-- JavaScript `x >= t` for a possibly-undefined number `x`: comparing
`undefined` yields `NaN >= t`, which is false. -/
def jsGe (x : Option ℚ) (t : ℚ) : Bool :=
  match x with
  | none => false
  | some v => decide (t ≤ v)

namespace AppMain

/-- Embeds `getRecommendation(score, fiabilite)` of src/src/App.jsx (lines
40-45): Excellent needs `score >= 15 && fiabilite >= 7`, Bon needs
`score >= 12 && fiabilite >= 5`, Acceptable needs `score >= 10`, otherwise
Prudence.  `fiabilite` may be `undefined` (the modal passes
`vehicle.scores?.fiabilite`). -/
def getRecommendation (score : ℚ) (fiabilite : Option ℚ) : Verdict :=
  if 15 ≤ score ∧ jsGe fiabilite 7 then .excellent
  else if 12 ≤ score ∧ jsGe fiabilite 5 then .bon
  else if 10 ≤ score then .acceptable
  else .prudence

/-- Embeds `getGaugeColor(score)` of src/src/App.jsx (lines 32-38): `!score`
(undefined or 0) gives gray, then the 8/6/5 thresholds pick the color. -/
def getGaugeColor (score : Option ℚ) : String :=
  match score with
  | none => "#9CA3AF"
  | some s =>
    if s = 0 then "#9CA3AF"
    else if 8 ≤ s then "#22C55E"
    else if 6 ≤ s then "#84CC16"
    else if 5 ≤ s then "#EAB308"
    else "#EF4444"

/-- One entry of the `analysisData.gauges` array built by `VehicleModal`
(src/src/App.jsx lines 422-450).  The JSX also carries a label, an icon and a
description; they are constant per dimension and not modelled. -/
structure Gauge where
  id : String
  value : ℚ
  max : ℚ
  color : String
deriving DecidableEq

/-- The per-vehicle sub-scores `vehicle.scores` as read by the modal; each of
the three dimensions may be absent. -/
structure ScoresRec where
  fiabilite : Option ℚ
  confort : Option ℚ
  budget : Option ℚ

/-- Embeds the fiabilité gauge entry: `value: vehicle.scores?.fiabilite || 5`,
`max: 10`, `color: getGaugeColor(vehicle.scores?.fiabilite)`. -/
def fiabiliteGauge (x : Option ℚ) : Gauge :=
  { id := "fiabilite", value := jsOr x 5, max := 10, color := getGaugeColor x }

/-- Embeds the confort gauge entry of the modal. -/
def confortGauge (x : Option ℚ) : Gauge :=
  { id := "confort", value := jsOr x 5, max := 10, color := getGaugeColor x }

/-- Embeds the budget gauge entry of the modal. -/
def budgetGauge (x : Option ℚ) : Gauge :=
  { id := "budget", value := jsOr x 5, max := 10, color := getGaugeColor x }

/-- The `analysisData.gauges` array of `VehicleModal`. -/
def gauges (s : ScoresRec) : List Gauge :=
  [fiabiliteGauge s.fiabilite, confortGauge s.confort, budgetGauge s.budget]

end AppMain

namespace Card

/-- The style triple picked by `ConfidenceBadge`
(src/src/components/CarAnalysisCard.jsx lines 26-47). -/
structure BadgeStyle where
  bg : String
  icon : String
  textColor : String
deriving DecidableEq

/-- Embeds the `badgeStyles[badge.label] || fallback` lookup of
`ConfidenceBadge`: only the labels Certifié, Vérifié and Estimé have dedicated
styles; any other label gets the gray fallback with the question-mark icon. -/
def badgeStyle (label : String) : BadgeStyle :=
  if label = "Certifié" then
    { bg := "linear-gradient(135deg, #FFD700, #FFA500)", icon := "🥇", textColor := "#1a1a1a" }
  else if label = "Vérifié" then
    { bg := "linear-gradient(135deg, #C0C0C0, #A0A0A0)", icon := "🥈", textColor := "#1a1a1a" }
  else if label = "Estimé" then
    { bg := "linear-gradient(135deg, #CD7F32, #8B4513)", icon := "🥉", textColor := "#fff" }
  else
    { bg := "#6B7280", icon := "❓", textColor := "#fff" }

/-- The badge input of `ConfidenceBadge` (label plus source count; the source
list is only echoed and not modelled). -/
structure Badge where
  label : String
  sources_count : ℕ
deriving DecidableEq

/-- What `ConfidenceBadge` renders: the chosen style, the label and the
source count. -/
structure RenderedBadge where
  style : BadgeStyle
  label : String
  sources_count : ℕ
deriving DecidableEq

/-- Embeds `ConfidenceBadge`: a null/undefined badge renders nothing
(`if (!badge) return null`), otherwise the styled badge is rendered. -/
def confidenceBadge (b : Option Badge) : Option RenderedBadge :=
  match b with
  | none => none
  | some b => some { style := badgeStyle b.label, label := b.label, sources_count := b.sources_count }

end Card

namespace Marketplace

/-- Embeds `getRecommendation(score)` of src/unnamed/part_002 (lines 30-35):
the band is picked from the global score alone; the colors attached in the JS
object are not modelled. -/
def getRecommendation (score : ℚ) : Verdict :=
  if 15 ≤ score then .excellent
  else if 12 ≤ score then .bon
  else if 10 ≤ score then .acceptable
  else .prudence

/-- The fields of a car record that the part_002 modal reads for the
recommendation banner: `note_finale`, `expert_score` and the reliability
sub-score `scores.fiabilite`. -/
structure Car where
  note_finale : Option ℚ
  expert_score : Option ℚ
  fiabilite : Option ℚ

/-- Embeds `const score = car.note_finale || car.expert_score || 0` of the
part_002 modal and card. -/
def carScore (c : Car) : ℚ := jsOr c.note_finale (jsOr c.expert_score 0)

/-- Embeds the recommendation banner of the part_002 `VehicleModal`:
`getRecommendation(score)` — the reliability sub-score is not an input. -/
def modalRecommendation (c : Car) : Verdict := getRecommendation (carScore c)

end Marketplace

namespace Core

/-- Modelled from the spec: the Normalizer (§4.1) is not implemented under
src/.  Character normalization lowercases ASCII letters and strips the common
French diacritics. -/
def normChar (c : Char) : Char :=
  if 'A' ≤ c ∧ c ≤ 'Z' then Char.ofNat (c.toNat + 32)
  else match c with
    | 'é' => 'e'
    | 'è' => 'e'
    | 'ê' => 'e'
    | 'ë' => 'e'
    | 'à' => 'a'
    | 'â' => 'a'
    | 'î' => 'i'
    | 'ï' => 'i'
    | 'ô' => 'o'
    | 'û' => 'u'
    | 'ù' => 'u'
    | 'ç' => 'c'
    | _ => c

/-- Splits a character list at spaces; the accumulator holds the current token
reversed. -/
def splitAux : List Char → List Char → List (List Char)
  | [], acc => [acc.reverse]
  | c :: cs, acc => if c = ' ' then acc.reverse :: splitAux cs [] else splitAux cs (c :: acc)

/-- Modelled from the spec: tokenization of a listing/candidate string —
normalize the characters, split at spaces, drop empty tokens. -/
def tokens (s : String) : List (List Char) :=
  (splitAux (s.data.map normChar) []).filter (· ≠ [])

/-- The token set of a string; word order and repetition are forgotten. -/
def tokenFinset (s : String) : Finset (List Char) := (tokens s).toFinset

/-- Modelled from the spec: the Matcher's token-order-insensitive similarity
measure (§4.2 stage B, "a set-based token similarity, not pure edit
distance"), on a 0–100 integer scale: 100 × |A ∩ B| / |A ∪ B| (two empty token
sets count as identical). -/
def simNat (a b : Finset (List Char)) : ℕ :=
  if (a ∪ b).card = 0 then 100 else 100 * (a ∩ b).card / (a ∪ b).card

/-- Similarity of a listing string and a candidate comparison string. -/
def similarity (q t : String) : ℕ := simNat (tokenFinset q) (tokenFinset t)

/-- CanonicalVariant of the spec data model (§3): the fields the claims need.
Maximum power is integer kilowatts; fiscal power is the administrative
horsepower class; `category` indexes the body-style coefficient tables. -/
structure Variant where
  key : ℕ
  brand : String
  model : String
  fuel : String
  powerKw : ℤ
  fiscalPower : ℚ
  mixedConsumption : ℚ
  category : ℕ
  label : String
deriving DecidableEq

/-- Normalized listing input of the Matcher: raw brand (may be absent), the
free-text title, declared DIN horsepower (may be absent), declared fuel (may
be absent). -/
structure Listing where
  brand : Option String
  text : String
  powerHp : Option ℤ
  fuel : Option String
deriving DecidableEq

/-- Modelled from the spec: the comparison string of a candidate (§4.2 stage B,
brand+model+fuel+variant label). -/
def variantText (v : Variant) : String :=
  v.brand ++ " " ++ v.model ++ " " ++ v.fuel ++ " " ++ v.label

/-- Modelled from the spec: power agreement via the fixed factor
1 kW = 1.35962 DIN hp with tolerance ±5 hp (§8, part_000 "Validation
Mapping").  Stated exactly over ℤ by scaling with 100000:
|kW × 135962 − hp × 100000| ≤ 500000 is |kW × 1.35962 − hp| ≤ 5. -/
def powerAgrees (kw hp : ℤ) : Bool :=
  |kw * 135962 - hp * 100000| ≤ 500000

/-- Power-agreement flag of a candidate: a listing without a declared power
gets no power bonus. -/
def powerAgreeL (l : Listing) (v : Variant) : Bool :=
  match l.powerHp with
  | some hp => powerAgrees v.powerKw hp
  | none => false

/-- Fuel-agreement flag: the listing declares exactly the candidate's fuel. -/
def fuelAgreeL (l : Listing) (v : Variant) : Bool :=
  l.fuel == some v.fuel

/-- Fuel-disagreement flag: the listing declares a fuel different from the
candidate's (an absent declared fuel is no disagreement). -/
def fuelMismatchL (l : Listing) (v : Variant) : Bool :=
  match l.fuel with
  | some f => f != v.fuel
  | none => false

/-- Agreement/disagreement flags carried by a match result for downstream
display or manual confirmation (§4.2). -/
structure Flags where
  power : Bool
  fuel : Bool
  mismatch : Bool
deriving DecidableEq

/-- The flags the Matcher computes for a candidate. -/
def flagsOf (l : Listing) (v : Variant) : Flags :=
  { power := powerAgreeL l v, fuel := fuelAgreeL l v, mismatch := fuelMismatchL l v }

/-- Tie-break bonus for power agreement (§4.2 stage B). -/
def powerBonus : ℤ := 3

/-- Tie-break bonus for fuel agreement (§4.2 stage B). -/
def fuelBonus : ℤ := 2

/-- Hard penalty for fuel disagreement: large enough that no candidate with a
disagreeing fuel can reach the Auto threshold (100 + 3 − 15 = 88 < 92). -/
def fuelPenalty : ℤ := 15

/-- Modelled from the spec: stage-B re-scoring (§4.2) — the set-based
similarity plus the power/fuel tie-break bonuses, minus the hard fuel
penalty. -/
def rescored (l : Listing) (v : Variant) : ℤ :=
  (similarity l.text (variantText v) : ℤ)
    + (if powerAgreeL l v then powerBonus else 0)
    + (if fuelAgreeL l v then fuelBonus else 0)
    - (if fuelMismatchL l v then fuelPenalty else 0)

/-- Decision band of a match (§3, §4.2). -/
inductive Band
  | auto
  | probable
  | rejected
deriving DecidableEq

/-- Modelled from the spec: the decision thresholds (§4.2; src/unnamed/part_000
"Seuils (pragmatiques)" lines 107-113): score ≥ 92 auto, 85 ≤ score < 92
probable, otherwise rejected. -/
def classify (s : ℤ) : Band :=
  if 92 ≤ s then .auto
  else if 85 ≤ s then .probable
  else .rejected

/-- Reasons for returning no match (§4.2 failure semantics). -/
inductive NoMatchReason
  | brandUnresolved
  | noCandidates
deriving DecidableEq

/-- MatchResult sum type of the spec data model (§3): no match with a reason,
an ambiguous top candidate (two candidates within the tie epsilon), or a
resolved candidate with its score, decision band and flags. -/
inductive MatchResult
  | noMatch (reason : NoMatchReason)
  | ambiguous (top : Variant) (score : ℤ)
  | resolved (variant : Variant) (score : ℤ) (band : Band) (flags : Flags)
deriving DecidableEq

/-- Modelled from the spec: brand resolution through the alias table (§4.2
stage A); the raw brand is normalized and looked up, an absent or unknown
brand resolves to none. -/
def resolveBrand (table : List (String × String)) : Option String → Option String
  | none => none
  | some s => table.lookup (String.mk (s.data.map normChar))

/-- Blocking (§4.2 stage A): restrict the index to candidates of the resolved
brand. -/
def candidatesFor (idx : List Variant) (b : String) : List Variant :=
  idx.filter (fun v => v.brand == b)

/-- The candidate with the maximal score together with that score. -/
def bestBy (f : Variant → ℤ) : List Variant → Option (Variant × ℤ)
  | [] => none
  | v :: vs =>
    match bestBy f vs with
    | none => some (v, f v)
    | some (w, s) => if s < f v then some (v, f v) else some (w, s)

/-- Modelled from the spec: the two-stage Matcher (§4.2), named after the
`match_one` entry point sketched in src/unnamed/part_000.  Unresolved or
absent brand short-circuits to NoMatch/BrandUnresolved; blocking keeps only
same-brand candidates; the best re-scored candidate is returned with its
decision band and flags, or Ambiguous when another candidate scores within the
1-point tie epsilon. -/
def matchOne (table : List (String × String)) (idx : List Variant) (l : Listing) :
    MatchResult :=
  match resolveBrand table l.brand with
  | none => .noMatch .brandUnresolved
  | some b =>
    match bestBy (rescored l) (candidatesFor idx b) with
    | none => .noMatch .noCandidates
    | some (v, s) =>
      if (candidatesFor idx b).any (fun w => w.key != v.key && decide (s - rescored l w < 1)) then
        .ambiguous v s
      else
        .resolved v s (classify s) (flagsOf l v)

/-- One secondary evidence source of an EvidenceBundle (§3, §4.3): a source
identifier, a source category (technical, user-sentiment, …) and whether its
data is fresh (within the staleness window). -/
structure EvidenceSource where
  id : ℕ
  category : ℕ
  fresh : Bool
deriving DecidableEq

/-- Confidence tier of an evidence bundle (§3): Unknown < Estimated <
Verified < Certified. -/
inductive Tier
  | unknown
  | estimated
  | verified
  | certified
deriving DecidableEq

/-- Numeric rank of a tier, for the ordering Unknown < Estimated < Verified <
Certified. -/
def Tier.toNat : Tier → ℕ
  | .unknown => 0
  | .estimated => 1
  | .verified => 2
  | .certified => 3

/-- Number of distinct sources of a bundle. -/
def distinctCount (srcs : List EvidenceSource) : ℕ :=
  (srcs.map (·.id)).dedup.length

/-- Number of distinct source categories of a bundle. -/
def categoryCount (srcs : List EvidenceSource) : ℕ :=
  (srcs.map (·.category)).dedup.length

/-- Whether some source of the bundle is fresh. -/
def hasFresh (srcs : List EvidenceSource) : Bool :=
  srcs.any (·.fresh)

/-- Modelled from the spec: the Evidence Fuser's confidence tiering (§4.3) —
the Fuser is not implemented under src/.  Three-plus distinct sources spanning
two-plus categories give Certified; two-plus distinct sources with a fresh one
give Verified; any source at all gives Estimated; an empty bundle is
Unknown. -/
def tier (srcs : List EvidenceSource) : Tier :=
  if 3 ≤ distinctCount srcs ∧ 2 ≤ categoryCount srcs then .certified
  else if 2 ≤ distinctCount srcs ∧ hasFresh srcs then .verified
  else if 1 ≤ distinctCount srcs then .estimated
  else .unknown

/-- CostInputs of the spec data model (§3): monthly distance, current fuel
price, and the externally configured per-category coefficient tables α (€/km
maintenance) and A0/A1 (yearly insurance proxy). -/
structure CostInputs where
  monthlyKm : ℚ
  pricePerUnit : ℚ
  alpha : ℕ → ℚ
  a0 : ℕ → ℚ
  a1 : ℕ → ℚ

/-- Output record of the Cost Model (§4.4). -/
structure CostBreakdown where
  fuel : ℚ
  maintenance : ℚ
  insuranceProxy : ℚ
  total : ℚ
deriving DecidableEq

/-- Modelled from the spec: the Cost Model (§4.4) — not implemented under src/
(src/src/components/CarAnalysisCard.jsx only displays a precomputed `tco`
object).  Fuel is (monthlyKm / 100) × mixed consumption × price; maintenance
is monthlyKm × α(category); the insurance proxy is
(A0(category) + A1(category) × fiscalPower) / 12 from the fiscal power; the
total is the exact unrounded sum. -/
def monthlyCost (v : Variant) (c : CostInputs) : CostBreakdown :=
  { fuel := c.monthlyKm / 100 * v.mixedConsumption * c.pricePerUnit
    maintenance := c.monthlyKm * c.alpha v.category
    insuranceProxy := (c.a0 v.category + c.a1 v.category * v.fiscalPower) / 12
    total := c.monthlyKm / 100 * v.mixedConsumption * c.pricePerUnit
      + c.monthlyKm * c.alpha v.category
      + (c.a0 v.category + c.a1 v.category * v.fiscalPower) / 12 }

end Core

open Core

/-- Alias table used by the concrete examples. -/
def sampleTable : List (String × String) := [("renault", "renault")]

/-- A diesel Clio IV reference variant (66 kW ≈ 89.7 DIN hp). -/
def clioDiesel : Variant :=
  { key := 1, brand := "renault", model := "clio", fuel := "diesel", powerKw := 66,
    fiscalPower := 5, mixedConsumption := 4, category := 0, label := "iv dci 90ch" }

/-- A petrol Clio IV reference variant with the same maximum power. -/
def clioPetrol : Variant :=
  { key := 2, brand := "renault", model := "clio", fuel := "essence", powerKw := 66,
    fiscalPower := 5, mixedConsumption := 5, category := 0, label := "iv tce 90ch" }

/-- A diesel-declared listing whose text matches `clioDiesel` exactly. -/
def clioListing : Listing :=
  { brand := some "Renault", text := "renault clio diesel iv dci 90ch",
    powerHp := some 90, fuel := some "diesel" }

/-- A diesel-declared listing whose text matches the petrol variant
`clioPetrol` exactly (the fuel-mismatch scenario of §8). -/
def petrolTextListing : Listing :=
  { brand := some "Renault", text := "renault clio essence iv tce 90ch",
    powerHp := some 90, fuel := some "diesel" }

/-- Concrete cost inputs for the examples. -/
def sampleCosts : CostInputs :=
  { monthlyKm := 1000, pricePerUnit := 2, alpha := fun _ => 1 / 10,
    a0 := fun _ => 380, a1 := fun _ => 35 }

/-- The set-based token similarity never exceeds 100. -/
theorem simNat_le_hundred (a b : Finset (List Char)) : simNat a b ≤ 100 := by
  unfold simNat
  split
  · exact le_refl 100
  · next h =>
    have hpos : 0 < (a ∪ b).card := Nat.pos_of_ne_zero h
    have hsub : (a ∩ b).card ≤ (a ∪ b).card :=
      Finset.card_le_card Finset.inter_subset_union
    calc 100 * (a ∩ b).card / (a ∪ b).card
        ≤ 100 * (a ∪ b).card / (a ∪ b).card :=
          Nat.div_le_div_right (Nat.mul_le_mul_left 100 hsub)
      _ = 100 := Nat.mul_div_cancel 100 hpos

/-- String-level similarity never exceeds 100. -/
theorem similarity_le_hundred (q t : String) : similarity q t ≤ 100 :=
  simNat_le_hundred _ _

/-- A candidate with a fuel disagreement cannot also have fuel agreement. -/
theorem fuelAgree_eq_false_of_mismatch {l : Listing} {v : Variant}
    (h : fuelMismatchL l v = true) : fuelAgreeL l v = false := by
  unfold fuelMismatchL at h
  unfold fuelAgreeL
  cases hf : l.fuel with
  | none => rw [hf] at h; simp at h
  | some f =>
    rw [hf] at h
    have hne : f ≠ v.fuel := by simpa using h
    simp [beq_eq_false_iff_ne, hne]

/-- Under a fuel disagreement the re-scored similarity stays at most 88, in
particular strictly below the Auto threshold 92. -/
theorem rescored_le_of_mismatch {l : Listing} {v : Variant}
    (h : fuelMismatchL l v = true) : rescored l v ≤ 88 := by
  have hfa := fuelAgree_eq_false_of_mismatch h
  have hs : (similarity l.text (variantText v) : ℤ) ≤ 100 := by
    exact_mod_cast similarity_le_hundred l.text (variantText v)
  unfold rescored
  have h1 : (if fuelMismatchL l v then fuelPenalty else 0) = 15 := by
    simp [h, fuelPenalty]
  have h2 : (if fuelAgreeL l v then fuelBonus else 0) = 0 := by
    simp [hfa]
  have h3 : (if powerAgreeL l v then powerBonus else 0) ≤ 3 := by
    cases powerAgreeL l v <;> simp [powerBonus]
  omega

/-- A score of at most 88 is never classified Auto. -/
theorem classify_ne_auto_of_le {s : ℤ} (h : s ≤ 88) : classify s ≠ Band.auto := by
  unfold classify
  rw [if_neg (by omega)]
  split_ifs <;> decide

/-- The best candidate returned by `bestBy` is a member of the list and is
paired with its own score. -/
theorem bestBy_eq_some {f : Variant → ℤ} :
    ∀ {L : List Variant} {v : Variant} {s : ℤ},
      bestBy f L = some (v, s) → v ∈ L ∧ s = f v := by
  intro L
  induction L with
  | nil => intro v s h; simp [bestBy] at h
  | cons a as ih =>
    intro v s h
    simp only [bestBy] at h
    split at h
    · simp only [Option.some.injEq, Prod.mk.injEq] at h
      obtain ⟨hv, hs⟩ := h
      subst hv; subst hs
      exact ⟨List.mem_cons_self a as, rfl⟩
    · next w sw heq =>
      split at h
      · simp only [Option.some.injEq, Prod.mk.injEq] at h
        obtain ⟨hv, hs⟩ := h
        subst hv; subst hs
        exact ⟨List.mem_cons_self a as, rfl⟩
      · simp only [Option.some.injEq, Prod.mk.injEq] at h
        obtain ⟨hv, hs⟩ := h
        subst hv; subst hs
        obtain ⟨hm, he⟩ := ih heq
        exact ⟨List.mem_cons_of_mem a hm, he⟩

/-- Inversion of a resolved match: the brand resolved, the variant came from
the blocked candidate list, the score is its re-scored similarity, the band is
its classification and the flags are its agreement flags. -/
theorem matchOne_resolved_inv {table : List (String × String)} {idx : List Variant}
    {l : Listing} {v : Variant} {s : ℤ} {b : Band} {fl : Flags}
    (h : matchOne table idx l = .resolved v s b fl) :
    ∃ b₀, resolveBrand table l.brand = some b₀ ∧
      v ∈ candidatesFor idx b₀ ∧ s = rescored l v ∧ b = classify s ∧ fl = flagsOf l v := by
  unfold matchOne at h
  split at h
  · simp at h
  · next b₀ heqb =>
    split at h
    · simp at h
    · next v' s' heqbest =>
      split at h
      · simp at h
      · simp only [MatchResult.resolved.injEq] at h
        obtain ⟨hv, hs, hb, hfl⟩ := h
        obtain ⟨hm, he⟩ := bestBy_eq_some heqbest
        subst hv; subst hs
        exact ⟨b₀, heqb, hm, he, hb.symm, hfl.symm⟩

/-- Candidates surviving the blocking stage carry the blocked brand. -/
theorem brand_of_mem_candidates {idx : List Variant} {b : String} {v : Variant}
    (h : v ∈ candidatesFor idx b) : v.brand = b := by
  unfold candidatesFor at h
  rw [List.mem_filter] at h
  exact eq_of_beq h.2

/-- Deduplicated length never shrinks when an element is added in front. -/
theorem dedup_length_le_cons {α : Type} [DecidableEq α] (a : α) (l : List α) :
    l.dedup.length ≤ (a :: l).dedup.length := by
  by_cases h : a ∈ l
  · rw [List.dedup_cons_of_mem h]
  · rw [List.dedup_cons_of_not_mem h]; exact Nat.le_succ _

/-- Adding a source never decreases the distinct-source count. -/
theorem distinctCount_le_cons (s : EvidenceSource) (l : List EvidenceSource) :
    distinctCount l ≤ distinctCount (s :: l) := by
  unfold distinctCount
  rw [List.map_cons]
  exact dedup_length_le_cons _ _

/-- Adding a source never decreases the category count. -/
theorem categoryCount_le_cons (s : EvidenceSource) (l : List EvidenceSource) :
    categoryCount l ≤ categoryCount (s :: l) := by
  unfold categoryCount
  rw [List.map_cons]
  exact dedup_length_le_cons _ _

/-- Adding a source preserves the presence of a fresh source. -/
theorem hasFresh_cons_of (s : EvidenceSource) (l : List EvidenceSource)
    (h : hasFresh l = true) : hasFresh (s :: l) = true := by
  unfold hasFresh at *
  rw [List.any_cons, h, Bool.or_true]

/-- C1 counterexample: in the simplified marketplace app (src/unnamed/part_002)
the recommendation band is computed from the global score alone, so a vehicle
with global score 16 and reliability sub-score 0 — far below any reliability
threshold — still gets the Excellent band: a high global score does yield the
excellent band with a low reliability sub-score, contradicting the claim. -/
theorem marketplace_excellent_ignores_reliability :
    Marketplace.modalRecommendation
        { note_finale := some 16, expert_score := none, fiabilite := some 0 }
      = Verdict.excellent
    ∧ ({ note_finale := some 16, expert_score := none, fiabilite := some 0 }
        : Marketplace.Car).fiabilite = some 0
    ∧ (0 : ℚ) < 7 := by
  refine ⟨by decide, rfl, by decide⟩

/-- C1 (amended): in the main app (src/src/App.jsx) the recommendation is a
deterministic step function of the global score and the reliability sub-score
and the Excellent band requires both thresholds (score ≥ 15 and fiabilité ≥ 7),
so no global score yields Excellent when the reliability sub-score is below 7
or absent; the simplified marketplace app of src/unnamed/part_002 instead
derives the band from the global score alone, so its Excellent band carries no
reliability veto. -/
theorem recommendation_reliability_veto :
    (∀ (s f : ℚ), f < 7 → AppMain.getRecommendation s (some f) ≠ Verdict.excellent)
    ∧ (∀ s : ℚ, AppMain.getRecommendation s none ≠ Verdict.excellent) := by
  constructor
  · intro s f hf
    have hj : jsGe (some f) 7 = false := by
      simp [jsGe, decide_eq_false_iff_not]
      linarith
    unfold AppMain.getRecommendation
    rw [if_neg (by simp [hj])]
    split_ifs <;> decide
  · intro s
    have hj : jsGe (none : Option ℚ) 7 = false := rfl
    unfold AppMain.getRecommendation
    rw [if_neg (by simp [hj])]
    split_ifs <;> decide

/-- Witness for C1: concrete application at score 20 and reliability 0. -/
theorem recommendation_reliability_veto_witness :
    AppMain.getRecommendation 20 (some 0) ≠ Verdict.excellent
    ∧ AppMain.getRecommendation 20 none ≠ Verdict.excellent :=
  ⟨recommendation_reliability_veto.1 20 0 (by decide),
   recommendation_reliability_veto.2 20⟩

/-- C2: the Cost Model returns fuel = (monthlyKm / 100) × mixedConsumption ×
pricePerUnit, maintenance = monthlyKm × α(category), insuranceProxy =
(A0(category) + A1(category) × fiscalPower) / 12 — computed from the fiscal
power and never from the maximum power (two variants agreeing on category and
fiscal power get the same proxy whatever their maximum powers) — and the total
is the exact unrounded sum; doubling monthlyKm exactly doubles fuel and
maintenance and leaves the insurance proxy unchanged. -/
theorem monthlyCost_model :
    (∀ (v : Variant) (c : CostInputs),
      (monthlyCost v c).fuel = c.monthlyKm / 100 * v.mixedConsumption * c.pricePerUnit
      ∧ (monthlyCost v c).maintenance = c.monthlyKm * c.alpha v.category
      ∧ (monthlyCost v c).insuranceProxy
          = (c.a0 v.category + c.a1 v.category * v.fiscalPower) / 12
      ∧ (monthlyCost v c).total
          = (monthlyCost v c).fuel + (monthlyCost v c).maintenance
            + (monthlyCost v c).insuranceProxy)
    ∧ (∀ (v w : Variant) (c : CostInputs), v.category = w.category →
        v.fiscalPower = w.fiscalPower →
        (monthlyCost v c).insuranceProxy = (monthlyCost w c).insuranceProxy)
    ∧ (∀ (v : Variant) (c : CostInputs),
      (monthlyCost v { c with monthlyKm := 2 * c.monthlyKm }).fuel
          = 2 * (monthlyCost v c).fuel
      ∧ (monthlyCost v { c with monthlyKm := 2 * c.monthlyKm }).maintenance
          = 2 * (monthlyCost v c).maintenance
      ∧ (monthlyCost v { c with monthlyKm := 2 * c.monthlyKm }).insuranceProxy
          = (monthlyCost v c).insuranceProxy) := by
  refine ⟨fun v c => ⟨rfl, rfl, rfl, rfl⟩, fun v w c h1 h2 => ?_, fun v c => ⟨?_, ?_, rfl⟩⟩
  · unfold monthlyCost
    simp only
    rw [h1, h2]
  · unfold monthlyCost
    simp only
    ring
  · unfold monthlyCost
    simp only
    ring

/-- Witness for C2: two concrete variants differing only in maximum power get
the same insurance proxy. -/
theorem monthlyCost_model_witness :
    (monthlyCost clioDiesel sampleCosts).insuranceProxy
      = (monthlyCost { clioDiesel with powerKw := 999 } sampleCosts).insuranceProxy :=
  monthlyCost_model.2.1 clioDiesel { clioDiesel with powerKw := 999 } sampleCosts rfl rfl

/-- C3: the decision band is the step function of the candidate's similarity
score given by the §4.2 thresholds — score ≥ 92 is Auto, 85 ≤ score < 92 is
Probable, score < 85 is Rejected — and every resolved result of the Matcher
carries exactly that band for its score together with the power/fuel
agreement-disagreement flags. -/
theorem decision_band_thresholds :
    (∀ s : ℤ,
      (92 ≤ s → classify s = Band.auto)
      ∧ (85 ≤ s ∧ s < 92 → classify s = Band.probable)
      ∧ (s < 85 → classify s = Band.rejected))
    ∧ (∀ (table : List (String × String)) (idx : List Variant) (l : Listing)
        (v : Variant) (s : ℤ) (b : Band) (fl : Flags),
        matchOne table idx l = .resolved v s b fl →
        b = classify s ∧ fl = flagsOf l v) := by
  constructor
  · intro s
    refine ⟨fun h => ?_, fun h => ?_, fun h => ?_⟩ <;> unfold classify
    · rw [if_pos h]
    · rw [if_neg (by omega), if_pos h.1]
    · rw [if_neg (by omega), if_neg (by omega)]
  · intro table idx l v s b fl h
    obtain ⟨b₀, -, -, -, hb, hfl⟩ := matchOne_resolved_inv h
    exact ⟨hb, hfl⟩

/-- Witness for C3: the thresholds at 95, 88 and 60, and a concrete resolved
match carrying its band and flags. -/
theorem decision_band_thresholds_witness :
    classify 95 = Band.auto
    ∧ classify 88 = Band.probable
    ∧ classify 60 = Band.rejected
    ∧ (Band.auto = classify 105
       ∧ ({ power := true, fuel := true, mismatch := false } : Flags)
           = flagsOf clioListing clioDiesel) :=
  ⟨(decision_band_thresholds.1 95).1 (by decide),
   (decision_band_thresholds.1 88).2.1 ⟨by decide, by decide⟩,
   (decision_band_thresholds.1 60).2.2 (by decide),
   decision_band_thresholds.2 sampleTable [clioDiesel] clioListing clioDiesel 105 Band.auto
     { power := true, fuel := true, mismatch := false } (by decide)⟩

/-- C4 counterexample: two evidence bundles with the same distinct-source
count (3) and identical per-source freshness (all fresh) receive different
tiers — they differ only in how many source categories they span — so the
tier is not a function of distinct-source count and recency alone. -/
theorem tier_not_function_of_count_and_recency :
    distinctCount [⟨1, 0, true⟩, ⟨2, 0, true⟩, ⟨3, 0, true⟩]
      = distinctCount [⟨1, 0, true⟩, ⟨2, 0, true⟩, ⟨3, 1, true⟩]
    ∧ ([⟨1, 0, true⟩, ⟨2, 0, true⟩, ⟨3, 0, true⟩] : List EvidenceSource).map (·.fresh)
      = ([⟨1, 0, true⟩, ⟨2, 0, true⟩, ⟨3, 1, true⟩] : List EvidenceSource).map (·.fresh)
    ∧ tier [⟨1, 0, true⟩, ⟨2, 0, true⟩, ⟨3, 0, true⟩]
      ≠ tier [⟨1, 0, true⟩, ⟨2, 0, true⟩, ⟨3, 1, true⟩] := by
  refine ⟨by decide, by decide, by decide⟩

/-- C4 (amended): the confidence tier is a function only of the distinct-source
count, the recency and the source-category diversity of the bundle; a bundle
with zero sources is always Unknown; and the tiering is monotonic — adding a
source never produces a lower tier than the bundle had without it. -/
theorem tier_zero_unknown_and_monotone :
    tier [] = Tier.unknown
    ∧ (∀ (s : EvidenceSource) (l : List EvidenceSource),
        (tier l).toNat ≤ (tier (s :: l)).toNat)
    ∧ (∀ l₁ l₂ : List EvidenceSource, distinctCount l₁ = distinctCount l₂ →
        categoryCount l₁ = categoryCount l₂ → hasFresh l₁ = hasFresh l₂ →
        tier l₁ = tier l₂) := by
  refine ⟨by decide, ?_, ?_⟩
  · intro s l
    have hd := distinctCount_le_cons s l
    have hc := categoryCount_le_cons s l
    unfold tier
    by_cases h1 : 3 ≤ distinctCount l ∧ 2 ≤ categoryCount l
    · rw [if_pos h1, if_pos ⟨le_trans h1.1 hd, le_trans h1.2 hc⟩]
    · rw [if_neg h1]
      by_cases h2 : 2 ≤ distinctCount l ∧ hasFresh l = true
      · rw [if_pos h2]
        by_cases h1' : 3 ≤ distinctCount (s :: l) ∧ 2 ≤ categoryCount (s :: l)
        · rw [if_pos h1']; decide
        · rw [if_neg h1', if_pos ⟨le_trans h2.1 hd, hasFresh_cons_of s l h2.2⟩]
      · rw [if_neg h2]
        by_cases h3 : 1 ≤ distinctCount l
        · rw [if_pos h3]
          have h3' : 1 ≤ distinctCount (s :: l) := le_trans h3 hd
          by_cases h1' : 3 ≤ distinctCount (s :: l) ∧ 2 ≤ categoryCount (s :: l)
          · rw [if_pos h1']; decide
          · rw [if_neg h1']
            by_cases h2' : 2 ≤ distinctCount (s :: l) ∧ hasFresh (s :: l) = true
            · rw [if_pos h2']; decide
            · rw [if_neg h2', if_pos h3']
        · rw [if_neg h3]
          exact Nat.zero_le _
  · intro l₁ l₂ h1 h2 h3
    unfold tier
    rw [h1, h2, h3]

/-- Witness for C4: two concrete bundles agreeing on the three inputs of the
tier get the same tier. -/
theorem tier_zero_unknown_and_monotone_witness :
    tier ([⟨1, 0, true⟩] : List EvidenceSource)
      = tier ([⟨1, 0, true⟩, ⟨1, 0, true⟩] : List EvidenceSource) :=
  tier_zero_unknown_and_monotone.2.2 [⟨1, 0, true⟩] [⟨1, 0, true⟩, ⟨1, 0, true⟩]
    (by decide) (by decide) (by decide)

/-- C5: the power-agreement bonus condition holds exactly when the variant's
maximum power converted by the fixed factor 1 kW = 1.35962 DIN hp agrees with
the declared horsepower within ±5 hp, and fuel disagreement is a hard penalty:
a diesel-declared listing scored against an "essence" variant never receives a
Resolved/Auto result from the Matcher. -/
theorem power_bonus_iff_and_fuel_veto :
    (∀ kw hp : ℤ, powerAgrees kw hp = true
      ↔ |(kw : ℚ) * (135962 / 100000) - (hp : ℚ)| ≤ 5)
    ∧ (∀ (table : List (String × String)) (idx : List Variant) (l : Listing)
        (v : Variant) (s : ℤ) (b : Band) (fl : Flags),
        l.fuel = some "diesel" → v.fuel = "essence" →
        matchOne table idx l = .resolved v s b fl → b ≠ Band.auto) := by
  constructor
  · intro kw hp
    unfold powerAgrees
    rw [decide_eq_true_eq, abs_le, abs_le]
    constructor
    · rintro ⟨h1, h2⟩
      have h1q : (-500000 : ℚ) ≤ (kw : ℚ) * 135962 - (hp : ℚ) * 100000 := by
        exact_mod_cast h1
      have h2q : ((kw : ℚ) * 135962 - (hp : ℚ) * 100000) ≤ 500000 := by
        exact_mod_cast h2
      constructor <;> linarith
    · rintro ⟨h1, h2⟩
      constructor
      · have hq : (-500000 : ℚ) ≤ (kw : ℚ) * 135962 - (hp : ℚ) * 100000 := by linarith
        exact_mod_cast hq
      · have hq : ((kw : ℚ) * 135962 - (hp : ℚ) * 100000) ≤ 500000 := by linarith
        exact_mod_cast hq
  · intro table idx l v s b fl hl hv h
    obtain ⟨b₀, -, -, hs, hb, -⟩ := matchOne_resolved_inv h
    have hmm : fuelMismatchL l v = true := by
      unfold fuelMismatchL
      rw [hl, hv]
      decide
    have hle : s ≤ 88 := by
      rw [hs]
      exact rescored_le_of_mismatch hmm
    rw [hb]
    exact classify_ne_auto_of_le hle

/-- Witness for C5: the conversion check at 66 kW against 90 hp, and the
concrete diesel-listing-versus-petrol-variant match that lands in Probable,
not Auto. -/
theorem power_bonus_iff_and_fuel_veto_witness :
    (powerAgrees 66 90 = true ↔ |(66 : ℚ) * (135962 / 100000) - (90 : ℚ)| ≤ 5)
    ∧ Band.probable ≠ Band.auto :=
  ⟨power_bonus_iff_and_fuel_veto.1 66 90,
   power_bonus_iff_and_fuel_veto.2 sampleTable [clioPetrol] petrolTextListing clioPetrol 88
     Band.probable { power := true, fuel := false, mismatch := true } rfl rfl (by decide)⟩

/-- C6: blocking is sound — every Resolved result of the Matcher (whatever its
band, so in particular Resolved/Auto and Resolved/Probable) carries a variant
whose brand equals the listing's resolved normalized brand — and a listing
whose brand is absent or unresolvable through the alias table short-circuits
to NoMatch with reason BrandUnresolved. -/
theorem blocking_soundness :
    (∀ (table : List (String × String)) (idx : List Variant) (l : Listing)
        (v : Variant) (s : ℤ) (b : Band) (fl : Flags),
        matchOne table idx l = .resolved v s b fl →
        ∃ b₀, resolveBrand table l.brand = some b₀ ∧ v.brand = b₀)
    ∧ (∀ (table : List (String × String)) (idx : List Variant) (l : Listing),
        resolveBrand table l.brand = none →
        matchOne table idx l = .noMatch .brandUnresolved) := by
  constructor
  · intro table idx l v s b fl h
    obtain ⟨b₀, hres, hmem, -, -, -⟩ := matchOne_resolved_inv h
    exact ⟨b₀, hres, brand_of_mem_candidates hmem⟩
  · intro table idx l h
    unfold matchOne
    rw [h]

/-- Witness for C6: the concrete resolved match has the resolved brand, and a
brandless listing yields NoMatch/BrandUnresolved. -/
theorem blocking_soundness_witness :
    (∃ b₀, resolveBrand sampleTable clioListing.brand = some b₀ ∧ clioDiesel.brand = b₀)
    ∧ matchOne sampleTable [clioDiesel] { clioListing with brand := none }
        = MatchResult.noMatch NoMatchReason.brandUnresolved :=
  ⟨blocking_soundness.1 sampleTable [clioDiesel] clioListing clioDiesel 105 Band.auto
      { power := true, fuel := true, mismatch := false } (by decide),
   blocking_soundness.2 sampleTable [clioDiesel] { clioListing with brand := none } (by decide)⟩

/-- C7: the Matcher is word-order-insensitive — replacing a listing's text by
any reordering of its tokens leaves the whole match result (candidate set, top
similarity score, band and flags) exactly unchanged. -/
theorem similarity_word_order_insensitive :
    ∀ (table : List (String × String)) (idx : List Variant) (l : Listing) (t : String),
      (tokens l.text).Perm (tokens t) →
      matchOne table idx { l with text := t } = matchOne table idx l := by
  intro table idx l t hp
  have hfin : tokenFinset t = tokenFinset l.text := by
    unfold tokenFinset
    ext x
    simp only [List.mem_toFinset]
    exact (hp.mem_iff).symm
  have hres : rescored { l with text := t } = rescored l := by
    funext v
    unfold rescored similarity
    rw [show ({ l with text := t } : Listing).text = t from rfl, hfin]
    rfl
  have hfl : flagsOf { l with text := t } = flagsOf l := rfl
  unfold matchOne
  rw [hres, hfl]

/-- Witness for C7: reordering the tokens of the concrete Clio listing leaves
the match result unchanged. -/
theorem similarity_word_order_insensitive_witness :
    matchOne sampleTable [clioDiesel]
        { clioListing with text := "dci 90ch renault clio diesel iv" }
      = matchOne sampleTable [clioDiesel] clioListing :=
  similarity_word_order_insensitive sampleTable [clioDiesel] clioListing
    "dci 90ch renault clio diesel iv" (by decide)

/-- C8: in the vehicle-detail modal each per-dimension gauge (fiabilité,
confort, budget) gets value 5 out of 10 when the corresponding sub-score is
absent, and likewise when it is exactly 0 (the falsy value is replaced by the
default), so a genuine zero sub-score renders identically to an absent one. -/
theorem gauge_default_five_for_missing_or_zero :
    (AppMain.fiabiliteGauge none = AppMain.fiabiliteGauge (some 0)
      ∧ (AppMain.fiabiliteGauge none).value = 5
      ∧ (AppMain.fiabiliteGauge none).max = 10)
    ∧ (AppMain.confortGauge none = AppMain.confortGauge (some 0)
      ∧ (AppMain.confortGauge none).value = 5
      ∧ (AppMain.confortGauge none).max = 10)
    ∧ (AppMain.budgetGauge none = AppMain.budgetGauge (some 0)
      ∧ (AppMain.budgetGauge none).value = 5
      ∧ (AppMain.budgetGauge none).max = 10)
    ∧ (∀ (f c b : Option ℚ),
        AppMain.gauges { fiabilite := none, confort := c, budget := b }
          = AppMain.gauges { fiabilite := some 0, confort := c, budget := b }
        ∧ AppMain.gauges { fiabilite := f, confort := none, budget := b }
          = AppMain.gauges { fiabilite := f, confort := some 0, budget := b }
        ∧ AppMain.gauges { fiabilite := f, confort := c, budget := none }
          = AppMain.gauges { fiabilite := f, confort := c, budget := some 0 }) := by
  refine ⟨by decide, by decide, by decide, fun f c b => ⟨?_, ?_, ?_⟩⟩ <;>
    simp [AppMain.gauges] <;> decide

/-- C9: with an absent reliability sub-score the main app's recommendation can
only be Acceptable or Prudence — the Excellent and Bon branches are
unreachable whatever the global score — and a global score below 10 yields
Prudence. -/
theorem recommendation_without_reliability :
    ∀ s : ℚ, AppMain.getRecommendation s none
      = if 10 ≤ s then Verdict.acceptable else Verdict.prudence := by
  intro s
  unfold AppMain.getRecommendation
  rw [if_neg (by simp [jsGe]), if_neg (by simp [jsGe])]

/-- C10: the confidence-badge renderer is total — a null/undefined badge
renders nothing, and a badge whose label is outside Certifié/Vérifié/Estimé
renders with the gray fallback background and the question-mark icon. -/
theorem confidence_badge_total :
    Card.confidenceBadge none = none
    ∧ (∀ b : Card.Badge,
        b.label ≠ "Certifié" → b.label ≠ "Vérifié" → b.label ≠ "Estimé" →
        Card.confidenceBadge (some b)
          = some { style := { bg := "#6B7280", icon := "❓", textColor := "#fff" },
                   label := b.label, sources_count := b.sources_count }) := by
  constructor
  · rfl
  · intro b h1 h2 h3
    simp only [Card.confidenceBadge, Card.badgeStyle]
    rw [if_neg h1, if_neg h2, if_neg h3]

/-- Witness for C10: a badge with the unknown label Inconnu renders with the
gray fallback style. -/
theorem confidence_badge_total_witness :
    Card.confidenceBadge (some { label := "Inconnu", sources_count := 2 })
      = some { style := { bg := "#6B7280", icon := "❓", textColor := "#fff" },
               label := "Inconnu", sources_count := 2 } :=
  confidence_badge_total.2 { label := "Inconnu", sources_count := 2 }
    (by decide) (by decide) (by decide)
